import Mathlib

/-!
Shallow embedding of the `bicycle315/qiskit-metal` sources:

* `qiskit_metal/analyses/quantization/sim_eigenmode.py` (`EigenmodeSim`)
* `qiskit_metal/_gui/tree_view_base.py` (`QTreeView_Base`)

The external EDA renderer is modelled as a record of fallible methods
(`Except` models a Python call that may raise).  Every `EigenmodeSim`
operation returns the list of renderer calls it issued (in order), the
updated object state (reflecting attribute mutations performed before any
exception), and its `Except` result.
-/

namespace QiskitMetal

/-- The per-simulation setup dictionary `default_setup['sim']` of
`EigenmodeSim` (sim_eigenmode.py lines 43-52).  `vars` is the ordered
key/value list of the nested `vars` Dict. -/
structure SimSetup where
  name : String
  min_freq_ghz : Nat
  n_modes : Nat
  max_delta_f : Rat
  max_passes : Nat
  min_passes : Nat
  min_converged : Nat
  pct_refinement : Nat
  basis_order : Nat
  vars : List (String × String)
deriving DecidableEq, Repr

/-- The setup dictionary `default_setup` of `EigenmodeSim`: a single key
`sim` holding the nested setup. -/
structure SetupDict where
  sim : SimSetup
deriving DecidableEq, Repr

/-- The class attribute `EigenmodeSim.default_setup`
(sim_eigenmode.py lines 43-52), with all its literal values. -/
def EigenmodeSim_default_setup : SetupDict :=
  { sim := { name := "Setup"
             min_freq_ghz := 1
             n_modes := 1
             max_delta_f := 0.5
             max_passes := 10
             min_passes := 1
             min_converged := 1
             pct_refinement := 30
             basis_order := 1
             vars := [("Lj", "10 nH"), ("Cj", "0 fF")] } }

/-- The keyword arguments `**design_selection` that `run_sim` forwards to
`_render` and `_render` forwards to `renderer.execute_design`.
`name = none` means the key `"name"` is absent; `name = some none` means it
is present with value `None`; `name = some (some s)` means present with
value `s`. -/
structure DesignSelection where
  name : Option (Option String)
  selection : Option (List String)
  open_pins : Option (List String)
  port_list : Option (List String)
  jj_to_port : Option (List String)
  ignored_jjs : Option (List String)
  box_plus_buffer : Bool
deriving DecidableEq, Repr

/-- One call made on `self.renderer`, with the arguments passed. -/
inductive RCall where
  | execute_design (design_name : String) (solution_type : String)
      (sel : DesignSelection)
  | initialize_eigenmode (setup : SimSetup)
  | analyze_setup (setup_name : Option String)
  | get_convergences (variation : Option String)
  | set_mode (mode : Nat) (setup_name : Option String)
  | plot_fields (object_name : String) (args : List String)
  | clear_fields (names : Option (List String))
deriving DecidableEq, Repr

/-- The renderer-method name of a call. -/
inductive MName where
  | execute_design
  | initialize_eigenmode
  | analyze_setup
  | get_convergences
  | set_mode
  | plot_fields
  | clear_fields
deriving DecidableEq, Repr

/-- Method name of a renderer call. -/
def RCall.method : RCall → MName
  | RCall.execute_design _ _ _ => MName.execute_design
  | RCall.initialize_eigenmode _ => MName.initialize_eigenmode
  | RCall.analyze_setup _ => MName.analyze_setup
  | RCall.get_convergences _ => MName.get_convergences
  | RCall.set_mode _ _ => MName.set_mode
  | RCall.plot_fields _ _ => MName.plot_fields
  | RCall.clear_fields _ => MName.clear_fields

/-- The renderer methods listed by the spec (section 6: `execute_design`,
`initialize_eigenmode`, `analyze_setup`, `get_convergences`, `set_mode`,
`plot_fields`). -/
def spec_listed : MName → Bool
  | MName.execute_design => true
  | MName.initialize_eigenmode => true
  | MName.analyze_setup => true
  | MName.get_convergences => true
  | MName.set_mode => true
  | MName.plot_fields => true
  | MName.clear_fields => false

/-- The external EDA renderer, as the interface surface `EigenmodeSim`
uses.  `DF` is the type of the tabular data (pandas DataFrame) it returns;
`ε` is the type of the exceptions its methods may raise. -/
structure Renderer (DF : Type) (ε : Type) where
  execute_design : String → String → DesignSelection → Except ε String
  initialize_eigenmode : SimSetup → Except ε String
  analyze_setup : Option String → Except ε Unit
  get_convergences : Option String → Except ε (DF × DF)
  set_mode : Nat → Option String → Except ε Unit
  plot_fields : String → List String → Except ε String
  clear_fields : Option (List String) → Except ε Unit

/-- The mutable state of an `EigenmodeSim` instance.  `default_setup` is
the class-level defaults dictionary as seen through the instance (kept in
the state so that theorems can express that no operation changes it);
`setup_sim` is the per-instance setup `self.setup.sim`. -/
structure SimState (DF : Type) where
  design_name : String
  renderer_name : String
  renderer_initialized : Bool
  default_setup : SetupDict
  setup_sim : SimSetup
  setup_name : Option String
  convergence_t : Option DF
  convergence_f : Option DF

/-- Outcome of one `EigenmodeSim` operation: the renderer calls made in
order, the state after the operation (attribute writes performed before a
raise are kept, as in Python), and the returned value or the propagated
exception. -/
structure OpOut (DF ε α : Type) where
  trace : List RCall
  state : SimState DF
  result : Except ε α

/-- Modelled from the spec: `QAnalysisRenderer.__init__` is not under
`src/`; per the spec it only records the design pointer and renderer name
(sections 2, 8: instantiating the wrapper does not raise).  It stores the
class defaults and seeds the per-instance setup from them ("override at
call time", section 3); the renderer is not yet started. -/
def qanalysis_renderer_init (DF : Type) (design_name : String)
    (renderer_name : String) : SimState DF :=
  { design_name := design_name
    renderer_name := renderer_name
    renderer_initialized := false
    default_setup := EigenmodeSim_default_setup
    setup_sim := EigenmodeSim_default_setup.sim
    setup_name := none
    convergence_t := none
    convergence_f := none }

/-- `EigenmodeSim.__init__` (sim_eigenmode.py lines 55-70): calls the
superclass constructor, then sets `setup_name`, `_convergence_t`,
`_convergence_f` to `None`. -/
def EigenmodeSim_init (DF : Type) (design_name : String)
    (renderer_name : String) : SimState DF :=
  let st := qanalysis_renderer_init DF design_name renderer_name
  { st with setup_name := none, convergence_t := none, convergence_f := none }

/-- `EigenmodeSim(design)` with the default `renderer_name='hfss'`. -/
def EigenmodeSim_init_default (DF : Type) (design_name : String) :
    SimState DF :=
  EigenmodeSim_init DF design_name "hfss"

/-- Property getter `convergence_f` (sim_eigenmode.py lines 149-156). -/
def convergence_f_get {DF : Type} (st : SimState DF) : Option DF :=
  st.convergence_f

/-- Property setter `convergence_f` (sim_eigenmode.py lines 158-165). -/
def convergence_f_set {DF : Type} (st : SimState DF) (conv : DF) :
    SimState DF :=
  { st with convergence_f := some conv }

/-- Property getter `convergence_t` (sim_eigenmode.py lines 167-174). -/
def convergence_t_get {DF : Type} (st : SimState DF) : Option DF :=
  st.convergence_t

/-- Property setter `convergence_t` (sim_eigenmode.py lines 176-183). -/
def convergence_t_set {DF : Type} (st : SimState DF) (conv : DF) :
    SimState DF :=
  { st with convergence_t := some conv }

/-- `EigenmodeSim._render` (sim_eigenmode.py lines 72-89): choose the
tentative design name from the `name` keyword (falling back to
`design.name`), delete a non-`None` `name` key from the forwarded kwargs,
and call `renderer.execute_design` with `solution_type='eigenmode'`. -/
def EigenmodeSim_render {DF ε : Type} (r : Renderer DF ε)
    (st : SimState DF) (ds : DesignSelection) : OpOut DF ε String :=
  let base_name : String :=
    match ds.name with
    | some (some n) => n
    | _ => st.design_name
  let fwd : DesignSelection :=
    match ds.name with
    | some (some _) => { ds with name := none }
    | _ => ds
  let design_name := base_name ++ "_" ++ st.renderer_name
  { trace := [RCall.execute_design design_name "eigenmode" fwd]
    state := st
    result := r.execute_design design_name "eigenmode" fwd }

/-- `EigenmodeSim._analyze` (sim_eigenmode.py lines 91-100):
`initialize_eigenmode(**self.setup.sim)` (storing the returned setup
name), `analyze_setup(self.setup_name)`, then `get_convergences()`
whose pair is stored into `convergence_t` and `convergence_f`. -/
def EigenmodeSim_analyze {DF ε : Type} (r : Renderer DF ε)
    (st : SimState DF) : OpOut DF ε Unit :=
  match r.initialize_eigenmode st.setup_sim with
  | Except.error e =>
      { trace := [RCall.initialize_eigenmode st.setup_sim]
        state := st
        result := Except.error e }
  | Except.ok sn =>
      let st1 := { st with setup_name := some sn }
      match r.analyze_setup st1.setup_name with
      | Except.error e =>
          { trace := [RCall.initialize_eigenmode st.setup_sim,
                      RCall.analyze_setup st1.setup_name]
            state := st1
            result := Except.error e }
      | Except.ok _ =>
          match r.get_convergences none with
          | Except.error e =>
              { trace := [RCall.initialize_eigenmode st.setup_sim,
                          RCall.analyze_setup st1.setup_name,
                          RCall.get_convergences none]
                state := st1
                result := Except.error e }
          | Except.ok tf =>
              { trace := [RCall.initialize_eigenmode st.setup_sim,
                          RCall.analyze_setup st1.setup_name,
                          RCall.get_convergences none]
                state := { st1 with convergence_t := some tf.1,
                                    convergence_f := some tf.2 }
                result := Except.ok () }

/-- `EigenmodeSim.run_sim` (sim_eigenmode.py lines 102-147).  The
superclass method `_initialize_renderer` is not under `src/`, so it is
taken as the parameter `ir` and only invoked when
`renderer_initialized` is false, exactly as in the source.  Then
`_render(name=name, selection=components, ...)`, `_analyze()`, and the
return of `(renderer_design_name, self.setup_name)`. -/
def EigenmodeSim_run_sim {DF ε : Type}
    (ir : SimState DF → OpOut DF ε Unit) (r : Renderer DF ε)
    (st : SimState DF) (name : Option String)
    (components open_terminations port_list jj_to_port ignored_jjs :
      Option (List String))
    (box_plus_buffer : Bool) : OpOut DF ε (String × Option String) :=
  let pre : OpOut DF ε Unit :=
    if st.renderer_initialized then
      { trace := [], state := st, result := Except.ok () }
    else ir st
  match pre.result with
  | Except.error e =>
      { trace := pre.trace, state := pre.state, result := Except.error e }
  | Except.ok _ =>
      let ds : DesignSelection :=
        { name := some name
          selection := components
          open_pins := open_terminations
          port_list := port_list
          jj_to_port := jj_to_port
          ignored_jjs := ignored_jjs
          box_plus_buffer := box_plus_buffer }
      let ro := EigenmodeSim_render r pre.state ds
      match ro.result with
      | Except.error e =>
          { trace := pre.trace ++ ro.trace
            state := ro.state
            result := Except.error e }
      | Except.ok rdn =>
          let ao := EigenmodeSim_analyze r ro.state
          match ao.result with
          | Except.error e =>
              { trace := pre.trace ++ ro.trace ++ ao.trace
                state := ao.state
                result := Except.error e }
          | Except.ok _ =>
              { trace := pre.trace ++ ro.trace ++ ao.trace
                state := ao.state
                result := Except.ok (rdn, ao.state.setup_name) }

/-- `EigenmodeSim.recompute_convergences` (sim_eigenmode.py lines
185-194): one `get_convergences(variation)` call whose pair is stored. -/
def EigenmodeSim_recompute_convergences {DF ε : Type} (r : Renderer DF ε)
    (st : SimState DF) (variation : Option String) : OpOut DF ε Unit :=
  match r.get_convergences variation with
  | Except.error e =>
      { trace := [RCall.get_convergences variation]
        state := st
        result := Except.error e }
  | Except.ok tf =>
      { trace := [RCall.get_convergences variation]
        state := { st with convergence_t := some tf.1,
                           convergence_f := some tf.2 }
        result := Except.ok () }

/-- `EigenmodeSim.plot_fields` (sim_eigenmode.py lines 240-254):
`renderer.set_mode(eigenmode, self.setup_name)` then the return of
`renderer.plot_fields(*args, **kwargs, object_name=object_name)`. -/
def EigenmodeSim_plot_fields {DF ε : Type} (r : Renderer DF ε)
    (st : SimState DF) (object_name : String) (eigenmode : Nat)
    (args : List String) : OpOut DF ε String :=
  match r.set_mode eigenmode st.setup_name with
  | Except.error e =>
      { trace := [RCall.set_mode eigenmode st.setup_name]
        state := st
        result := Except.error e }
  | Except.ok _ =>
      { trace := [RCall.set_mode eigenmode st.setup_name,
                  RCall.plot_fields object_name args]
        state := st
        result := r.plot_fields object_name args }

/-- `EigenmodeSim.clear_fields` (sim_eigenmode.py lines 256-263): the
return of `renderer.clear_fields(names)`. -/
def EigenmodeSim_clear_fields {DF ε : Type} (r : Renderer DF ε)
    (st : SimState DF) (names : Option (List String)) : OpOut DF ε Unit :=
  { trace := [RCall.clear_fields names]
    state := st
    result := r.clear_fields names }

/-- One matplotlib/pyEPR plotting action performed by
`plot_convergences`, recording the data it is given. -/
inductive PlotAct (DF : Type) where
  | create_figure
  | grid_spec
  | add_subplot (i : Nat)
  | twinx (i : Nat)
  | plot_convergence_f_vspass (f : Option DF)
  | plot_convergence_max_df (t : Option DF)
  | plot_convergence_solved_elem (t : Option DF)
  | plot_convergence_maxdf_vs_sol (t : Option DF)
  | tight_layout
deriving DecidableEq, Repr

/-- `EigenmodeSim.plot_convergences` (sim_eigenmode.py lines 196-236):
resolve `None` table arguments from the instance attributes; when `fig` is
`None`, create a figure, grid spec, three axes and a twin axis, issue the
four pyEPR convergence plots and `tight_layout`; otherwise do nothing.
The display block is commented out in the source, so `under_score_display`
(the `_display` parameter) is never read. -/
def EigenmodeSim_plot_convergences {DF F : Type} (st : SimState DF)
    (conv_t conv_f : Option DF) (fig : Option F)
    (_display : Bool) : List (PlotAct DF) :=
  let ct : Option DF :=
    match conv_t with
    | none => st.convergence_t
    | some v => some v
  let cf : Option DF :=
    match conv_f with
    | none => st.convergence_f
    | some v => some v
  match fig with
  | some _ => []
  | none =>
      [PlotAct.create_figure, PlotAct.grid_spec,
       PlotAct.add_subplot 0, PlotAct.add_subplot 1, PlotAct.add_subplot 2,
       PlotAct.twinx 1,
       PlotAct.plot_convergence_f_vspass cf,
       PlotAct.plot_convergence_max_df ct,
       PlotAct.plot_convergence_solved_elem ct,
       PlotAct.plot_convergence_maxdf_vs_sol ct,
       PlotAct.tight_layout]

/-- One step of an instance's lifecycle after construction: any public
operation of `EigenmodeSim`, plus the spec-modelled per-call setup
override ("override at call time", spec section 3; the override machinery
lives in the `QAnalysis` superclass, which is not under `src/`). -/
inductive SimOp (DF ε : Type) where
  | run_sim_op (ir : SimState DF → OpOut DF ε Unit) (r : Renderer DF ε)
      (name : Option String)
      (components open_terminations port_list jj_to_port ignored_jjs :
        Option (List String))
      (box_plus_buffer : Bool)
  | recompute_op (r : Renderer DF ε) (variation : Option String)
  | set_convergence_t_op (v : DF)
  | set_convergence_f_op (v : DF)
  | plot_convergences_op (conv_t conv_f : Option DF) (fig : Option Unit)
      (d : Bool)
  | plot_fields_op (r : Renderer DF ε) (object_name : String)
      (eigenmode : Nat) (args : List String)
  | clear_fields_op (r : Renderer DF ε) (names : Option (List String))
  | setup_override_op (s : SimSetup)

/-- The state transition of one lifecycle step.  `plot_convergences` only
reads the instance, so it leaves the state unchanged; the spec-modelled
override replaces the per-instance `setup.sim` only. -/
def sim_step {DF ε : Type} (op : SimOp DF ε) (st : SimState DF) :
    SimState DF :=
  match op with
  | SimOp.run_sim_op ir r nm c o p j i b =>
      (EigenmodeSim_run_sim ir r st nm c o p j i b).state
  | SimOp.recompute_op r v =>
      (EigenmodeSim_recompute_convergences r st v).state
  | SimOp.set_convergence_t_op v => convergence_t_set st v
  | SimOp.set_convergence_f_op v => convergence_f_set st v
  | SimOp.plot_convergences_op _ _ _ _ => st
  | SimOp.plot_fields_op r nm m a =>
      (EigenmodeSim_plot_fields r st nm m a).state
  | SimOp.clear_fields_op r ns => (EigenmodeSim_clear_fields r st ns).state
  | SimOp.setup_override_op s => { st with setup_sim := s }

/-- The abstract `_initialize_renderer` step inside a `run_sim_op` leaves
the class defaults alone (it belongs to the superclass, outside this
class's code); every other step carries no such parameter. -/
def sim_op_ir_ok {DF ε : Type} : SimOp DF ε → Prop
  | SimOp.run_sim_op ir _ _ _ _ _ _ _ _ =>
      ∀ s, ((ir s).state).default_setup = s.default_setup
  | _ => True

/-- Run a sequence of lifecycle steps from a state. -/
def sim_run {DF ε : Type} (ops : List (SimOp DF ε)) (st : SimState DF) :
    SimState DF :=
  ops.foldl (fun s op => sim_step op s) st

/-! ## `QTreeView_Base` (tree_view_base.py) -/

/-- Qt scroll mode (`QAbstractItemView.ScrollPerItem` / `ScrollPerPixel`). -/
inductive ScrollMode where
  | per_item
  | per_pixel
deriving DecidableEq, Repr

/-- One widget-display change performed by the tree view class. -/
inductive WChange where
  | header_show
  | set_auto_scroll (b : Bool)
  | set_vertical_scroll_mode (m : ScrollMode)
  | set_horizontal_scroll_mode (m : ScrollMode)
  | set_style_sheet (s : String)
  | resize_column_to_contents (i : Nat)
  | set_column_width (i : Nat) (w : Nat)
deriving DecidableEq, Repr

/-- Whether a widget change is a column-width adjustment. -/
def WChange.is_column_width : WChange → Bool
  | WChange.resize_column_to_contents _ => true
  | WChange.set_column_width _ _ => true
  | _ => false

/-- The two bound methods used as callbacks by `QTreeView_Base`. -/
inductive CB where
  | style_me
  | resize_on_expand
deriving DecidableEq, Repr

/-- A Qt timer request (`QTimer.singleShot(delay, callback)`). -/
structure TimerReq where
  delay_ms : Nat
  single_shot : Bool
  callback : CB
deriving DecidableEq, Repr

/-- A Qt signal of the widget. -/
inductive Signal where
  | expanded
deriving DecidableEq, Repr

/-- Widget state of a `QTreeView_Base`.  `model` is the underlying item
model the view displays; `column_count` and `content_width` are what the
model reports (`model().columnCount`, content-sized widths); the remaining
fields are the pure display properties the class touches. -/
structure TreeViewState (M : Type) where
  model : M
  column_count : Nat
  content_width : Nat → Nat
  width : Nat → Nat
  header_shown : Bool
  auto_scroll : Bool
  v_scroll : ScrollMode
  h_scroll : ScrollMode
  style_sheet : String

/-- Outcome of one tree view method: new widget state and the display
changes performed, in order. -/
structure TVOut (M : Type) where
  state : TreeViewState M
  changes : List WChange

/-- Outcome of `QTreeView_Base.__init__`: timers scheduled and signal
connections made (no display change happens in the constructor itself). -/
structure TVInitOut (M : Type) where
  state : TreeViewState M
  timers : List TimerReq
  connections : List (Signal × CB)
  changes : List WChange

/-- `QTreeView_Base.__init__` (tree_view_base.py lines 30-37):
`QTimer.singleShot(200, self.style_me)` and
`self.expanded.connect(self.resize_on_expand)`. -/
def QTreeView_Base_init {M : Type} (st : TreeViewState M) : TVInitOut M :=
  { state := st
    timers := [{ delay_ms := 200, single_shot := true,
                 callback := CB.style_me }]
    connections := [(Signal.expanded, CB.resize_on_expand)]
    changes := [] }

/-- The literal stylesheet set by `style_me`. -/
def tree_view_style_sheet : String :=
  "\nQTreeView::branch \x7b  border-image: url(none.png); \x7d\n        "

/-- `QTreeView_Base.style_me` (tree_view_base.py lines 39-49): show the
header, disable auto-scroll, per-pixel scroll modes, set the stylesheet. -/
def style_me {M : Type} (st : TreeViewState M) : TVOut M :=
  { state := { st with header_shown := true
                       auto_scroll := false
                       v_scroll := ScrollMode.per_pixel
                       h_scroll := ScrollMode.per_pixel
                       style_sheet := tree_view_style_sheet }
    changes := [WChange.header_show,
                WChange.set_auto_scroll false,
                WChange.set_vertical_scroll_mode ScrollMode.per_pixel,
                WChange.set_horizontal_scroll_mode ScrollMode.per_pixel,
                WChange.set_style_sheet tree_view_style_sheet] }

/-- One iteration of the `autoresize_columns` loop body for column `i`:
`resizeColumnToContents(i)`, read the resulting width, and clamp it to
`max_width` via `setColumnWidth` when it exceeds it. -/
def autoresize_step {M : Type} (max_width : Nat) (st : TreeViewState M)
    (i : Nat) : TVOut M :=
  let st1 : TreeViewState M :=
    { st with width := fun j => if j = i then st.content_width i
                                else st.width j }
  let w := st1.width i
  if w > max_width then
    { state := { st1 with width := fun j => if j = i then max_width
                                            else st1.width j }
      changes := [WChange.resize_column_to_contents i,
                  WChange.set_column_width i max_width] }
  else
    { state := st1
      changes := [WChange.resize_column_to_contents i] }

/-- Accumulating form of one `autoresize_columns` loop iteration. -/
def autoresize_fold_step {M : Type} (max_width : Nat) (acc : TVOut M)
    (i : Nat) : TVOut M :=
  let o := autoresize_step max_width acc.state i
  { state := o.state, changes := acc.changes ++ o.changes }

/-- `QTreeView_Base.autoresize_columns` (tree_view_base.py lines 51-66):
for each column index below `model().columnCount(None)`, resize it to its
contents and clamp to `max_width`. -/
def autoresize_columns {M : Type} (st : TreeViewState M)
    (max_width : Nat) : TVOut M :=
  (List.range st.column_count).foldl (autoresize_fold_step max_width)
    { state := st, changes := [] }

/-- `QTreeView_Base.resize_on_expand` (tree_view_base.py lines 68-70):
`resizeColumnToContents(0)`; connected to the `expanded` signal. -/
def resize_on_expand {M : Type} (st : TreeViewState M) : TVOut M :=
  { state := { st with width := fun j => if j = 0 then st.content_width 0
                                         else st.width j }
    changes := [WChange.resize_column_to_contents 0] }

/-! ## Concrete fixtures used to exercise the theorems -/

/-- A renderer (over `DF := Nat`, exceptions `String`) whose methods all
succeed with fixed values. -/
def r_ok : Renderer Nat String :=
  { execute_design := fun _ _ _ => Except.ok "design_hfss"
    initialize_eigenmode := fun _ => Except.ok "Setup"
    analyze_setup := fun _ => Except.ok ()
    get_convergences := fun _ => Except.ok (1, 2)
    set_mode := fun _ _ => Except.ok ()
    plot_fields := fun _ _ => Except.ok "plot1"
    clear_fields := fun _ => Except.ok () }

/-- A renderer whose every method raises the exception `"boom"`. -/
def r_fail : Renderer Nat String :=
  { execute_design := fun _ _ _ => Except.error "boom"
    initialize_eigenmode := fun _ => Except.error "boom"
    analyze_setup := fun _ => Except.error "boom"
    get_convergences := fun _ => Except.error "boom"
    set_mode := fun _ _ => Except.error "boom"
    plot_fields := fun _ _ => Except.error "boom"
    clear_fields := fun _ => Except.error "boom" }

/-- A freshly constructed instance whose renderer has been started. -/
def st_ready : SimState Nat :=
  { EigenmodeSim_init Nat "design" "hfss" with renderer_initialized := true }

/-- A trivial `_initialize_renderer` stand-in: no calls, no state change. -/
def ir0 : SimState Nat → OpOut Nat String Unit :=
  fun s => { trace := [], state := s, result := Except.ok () }

/-- A concrete design-selection dictionary carrying a non-`None` name. -/
def ds_named : DesignSelection :=
  { name := some (some "dev")
    selection := none
    open_pins := none
    port_list := none
    jj_to_port := none
    ignored_jjs := none
    box_plus_buffer := true }

/-! ## Claims -/

/-- C3: `EigenmodeSim.default_setup['sim']` holds exactly the literal
defaults `name='Setup'`, `min_freq_ghz=1`, `n_modes=1`, `max_delta_f=0.5`,
`max_passes=10`, `min_passes=1`, `min_converged=1`, `pct_refinement=30`,
`basis_order=1`, `vars={'Lj': '10 nH', 'Cj': '0 fF'}`, and constructing an
instance retains these values. -/
theorem eigenmode_default_setup_literals :
    EigenmodeSim_default_setup.sim.name = "Setup" ∧
    EigenmodeSim_default_setup.sim.min_freq_ghz = 1 ∧
    EigenmodeSim_default_setup.sim.n_modes = 1 ∧
    EigenmodeSim_default_setup.sim.max_delta_f = 0.5 ∧
    EigenmodeSim_default_setup.sim.max_passes = 10 ∧
    EigenmodeSim_default_setup.sim.min_passes = 1 ∧
    EigenmodeSim_default_setup.sim.min_converged = 1 ∧
    EigenmodeSim_default_setup.sim.pct_refinement = 30 ∧
    EigenmodeSim_default_setup.sim.basis_order = 1 ∧
    EigenmodeSim_default_setup.sim.vars =
      [("Lj", "10 nH"), ("Cj", "0 fF")] ∧
    ∀ (DF : Type) (dn rn : String),
      (EigenmodeSim_init DF dn rn).default_setup =
        EigenmodeSim_default_setup :=
  ⟨rfl, rfl, rfl, rfl, rfl, rfl, rfl, rfl, rfl, rfl,
   fun _ _ _ => rfl⟩

/-- C7: constructing an `EigenmodeSim` (with or without an explicit
renderer name) is a total operation, and afterwards `setup_name`,
`convergence_t` and `convergence_f` are all `None`. -/
theorem eigenmode_init_no_raise (DF : Type) (dn rn : String) :
    ((EigenmodeSim_init DF dn rn).setup_name = none ∧
     (EigenmodeSim_init DF dn rn).convergence_t = none ∧
     (EigenmodeSim_init DF dn rn).convergence_f = none) ∧
    ((EigenmodeSim_init_default DF dn).setup_name = none ∧
     (EigenmodeSim_init_default DF dn).convergence_t = none ∧
     (EigenmodeSim_init_default DF dn).convergence_f = none) ∧
    (EigenmodeSim_init_default DF dn).renderer_name = "hfss" :=
  ⟨⟨rfl, rfl, rfl⟩, ⟨rfl, rfl, rfl⟩, rfl⟩

/-- C8: the convergence property accessors round-trip — after setting
`convergence_f` (resp. `convergence_t`) to `v`, reading it yields exactly
`v`, and the other table is unchanged. -/
theorem convergence_accessors_roundtrip (DF : Type) (st : SimState DF)
    (v : DF) :
    convergence_f_get (convergence_f_set st v) = some v ∧
    convergence_t_get (convergence_f_set st v) = convergence_t_get st ∧
    convergence_t_get (convergence_t_set st v) = some v ∧
    convergence_f_get (convergence_t_set st v) = convergence_f_get st :=
  ⟨rfl, rfl, rfl, rfl⟩

/-- C10: `plot_convergences` with a non-`None` `fig` produces no plotting
action at all; with `fig = None` it produces the full plotting sequence;
and the `_display` flag never affects the outcome. -/
theorem plot_convergences_fig_branch (DF F : Type) (st : SimState DF)
    (ct cf : Option DF) (f : F) (fig : Option F) (d d1 d2 : Bool) :
    EigenmodeSim_plot_convergences st ct cf (some f) d = [] ∧
    EigenmodeSim_plot_convergences st ct cf fig d1 =
      EigenmodeSim_plot_convergences st ct cf fig d2 ∧
    EigenmodeSim_plot_convergences st ct cf (none : Option F) d ≠ [] := by
  refine ⟨rfl, rfl, ?_⟩
  simp [EigenmodeSim_plot_convergences]

/-- C9: `_render` passes `execute_design` the tentative name
`name + "_" + renderer_name` when a non-`None` `name` keyword is supplied
(with the `name` key removed from the forwarded kwargs) and
`design.name + "_" + renderer_name` otherwise (key left as is), and
returns exactly what `execute_design` returns. -/
theorem render_tentative_name (DF ε : Type) (r : Renderer DF ε)
    (st : SimState DF) (ds : DesignSelection) (n : String) :
    (ds.name = some (some n) →
      (EigenmodeSim_render r st ds).trace =
        [RCall.execute_design (n ++ "_" ++ st.renderer_name) "eigenmode"
          { ds with name := none }] ∧
      (EigenmodeSim_render r st ds).result =
        r.execute_design (n ++ "_" ++ st.renderer_name) "eigenmode"
          { ds with name := none }) ∧
    (ds.name = some none →
      (EigenmodeSim_render r st ds).trace =
        [RCall.execute_design (st.design_name ++ "_" ++ st.renderer_name)
          "eigenmode" ds] ∧
      (EigenmodeSim_render r st ds).result =
        r.execute_design (st.design_name ++ "_" ++ st.renderer_name)
          "eigenmode" ds) ∧
    (ds.name = none →
      (EigenmodeSim_render r st ds).trace =
        [RCall.execute_design (st.design_name ++ "_" ++ st.renderer_name)
          "eigenmode" ds] ∧
      (EigenmodeSim_render r st ds).result =
        r.execute_design (st.design_name ++ "_" ++ st.renderer_name)
          "eigenmode" ds) := by
  refine ⟨fun h => ?_, fun h => ?_, fun h => ?_⟩ <;>
    simp [EigenmodeSim_render, h]

/-- Witness for C9 at a concrete selection carrying `name='dev'`. -/
theorem render_tentative_name_witness :
    (EigenmodeSim_render r_ok st_ready ds_named).trace =
      [RCall.execute_design "dev_hfss" "eigenmode"
        { ds_named with name := none }] ∧
    (EigenmodeSim_render r_ok st_ready ds_named).result =
      Except.ok "design_hfss" :=
  ⟨((render_tentative_name Nat String r_ok st_ready ds_named "dev").1
      rfl).1,
   ((render_tentative_name Nat String r_ok st_ready ds_named "dev").1
      rfl).2⟩

/-- C1: with the renderer started, `run_sim` makes exactly the calls
`execute_design`, `initialize_eigenmode`, `analyze_setup`,
`get_convergences` in that order, stores the fetched pair into
`convergence_t` and `convergence_f`, and returns the renderer design name
paired with the setup name. -/
theorem run_sim_sequences_calls (DF ε : Type)
    (ir : SimState DF → OpOut DF ε Unit) (r : Renderer DF ε)
    (st : SimState DF) (nm : Option String)
    (comp op pl jj ig : Option (List String)) (bpb : Bool)
    (t f : DF) (dn sn : String)
    (hinit : st.renderer_initialized = true)
    (hex : ∀ a b c, r.execute_design a b c = Except.ok dn)
    (hie : ∀ s, r.initialize_eigenmode s = Except.ok sn)
    (han : ∀ s, r.analyze_setup s = Except.ok ())
    (hgc : ∀ v, r.get_convergences v = Except.ok (t, f)) :
    (EigenmodeSim_run_sim ir r st nm comp op pl jj ig bpb).trace.map
        RCall.method =
      [MName.execute_design, MName.initialize_eigenmode,
       MName.analyze_setup, MName.get_convergences] ∧
    SimState.convergence_t
      (EigenmodeSim_run_sim ir r st nm comp op pl jj ig bpb).state =
        some t ∧
    SimState.convergence_f
      (EigenmodeSim_run_sim ir r st nm comp op pl jj ig bpb).state =
        some f ∧
    SimState.setup_name
      (EigenmodeSim_run_sim ir r st nm comp op pl jj ig bpb).state =
        some sn ∧
    (EigenmodeSim_run_sim ir r st nm comp op pl jj ig bpb).result =
      Except.ok (dn, some sn) := by
  simp [EigenmodeSim_run_sim, EigenmodeSim_render, EigenmodeSim_analyze,
        hinit, hex, hie, han, hgc, RCall.method]

/-- Witness for C1: a started instance with an everywhere-succeeding
renderer runs the four calls and returns the two names. -/
theorem run_sim_sequences_calls_witness :
    (EigenmodeSim_run_sim ir0 r_ok st_ready none none none none none none
        true).trace.map RCall.method =
      [MName.execute_design, MName.initialize_eigenmode,
       MName.analyze_setup, MName.get_convergences] ∧
    (EigenmodeSim_run_sim ir0 r_ok st_ready none none none none none none
        true).result = Except.ok ("design_hfss", some "Setup") := by
  have h := run_sim_sequences_calls Nat String ir0 r_ok st_ready none
    none none none none none true 1 2 "design_hfss" "Setup" rfl
    (fun _ _ _ => rfl) (fun _ => rfl) (fun _ => rfl) (fun _ => rfl)
  exact ⟨h.1, h.2.2.2.2⟩

/-- C2: an exception raised by a renderer method during `run_sim` (at any
of its four call sites), `recompute_convergences`, `plot_fields` (either
call site) or `clear_fields` propagates unchanged to the caller. -/
theorem renderer_errors_propagate (DF ε : Type)
    (ir : SimState DF → OpOut DF ε Unit) (r : Renderer DF ε)
    (st : SimState DF) (nm : Option String)
    (comp op pl jj ig : Option (List String)) (bpb : Bool)
    (v : Option String) (onm : String) (em : Nat) (ar : List String)
    (ns : Option (List String)) (e : ε) (dn sn : String)
    (hinit : st.renderer_initialized = true) :
    ((∀ a b c, r.execute_design a b c = Except.error e) →
      (EigenmodeSim_run_sim ir r st nm comp op pl jj ig bpb).result =
        Except.error e) ∧
    ((∀ a b c, r.execute_design a b c = Except.ok dn) →
     (∀ s, r.initialize_eigenmode s = Except.error e) →
      (EigenmodeSim_run_sim ir r st nm comp op pl jj ig bpb).result =
        Except.error e) ∧
    ((∀ a b c, r.execute_design a b c = Except.ok dn) →
     (∀ s, r.initialize_eigenmode s = Except.ok sn) →
     (∀ s, r.analyze_setup s = Except.error e) →
      (EigenmodeSim_run_sim ir r st nm comp op pl jj ig bpb).result =
        Except.error e) ∧
    ((∀ a b c, r.execute_design a b c = Except.ok dn) →
     (∀ s, r.initialize_eigenmode s = Except.ok sn) →
     (∀ s, r.analyze_setup s = Except.ok ()) →
     (∀ w, r.get_convergences w = Except.error e) →
      (EigenmodeSim_run_sim ir r st nm comp op pl jj ig bpb).result =
        Except.error e) ∧
    (r.get_convergences v = Except.error e →
      (EigenmodeSim_recompute_convergences r st v).result =
        Except.error e) ∧
    (r.set_mode em st.setup_name = Except.error e →
      (EigenmodeSim_plot_fields r st onm em ar).result =
        Except.error e) ∧
    (r.set_mode em st.setup_name = Except.ok () →
     r.plot_fields onm ar = Except.error e →
      (EigenmodeSim_plot_fields r st onm em ar).result =
        Except.error e) ∧
    (r.clear_fields ns = Except.error e →
      (EigenmodeSim_clear_fields r st ns).result = Except.error e) := by
  refine ⟨fun h1 => ?_, fun h1 h2 => ?_, fun h1 h2 h3 => ?_,
          fun h1 h2 h3 h4 => ?_, fun h1 => ?_, fun h1 => ?_,
          fun h1 h2 => ?_, fun h1 => ?_⟩ <;>
    simp [EigenmodeSim_run_sim, EigenmodeSim_render, EigenmodeSim_analyze,
          EigenmodeSim_recompute_convergences, EigenmodeSim_plot_fields,
          EigenmodeSim_clear_fields, hinit, h1] <;>
    simp_all

/-- Witness for C2: with an everywhere-raising renderer the `"boom"`
exception surfaces unchanged from `run_sim`, `recompute_convergences`,
`plot_fields` and `clear_fields`. -/
theorem renderer_errors_propagate_witness :
    (EigenmodeSim_run_sim ir0 r_fail st_ready none none none none none
        none true).result = Except.error "boom" ∧
    (EigenmodeSim_recompute_convergences r_fail st_ready none).result =
      Except.error "boom" ∧
    (EigenmodeSim_plot_fields r_fail st_ready "obj" 1 []).result =
      Except.error "boom" ∧
    (EigenmodeSim_clear_fields r_fail st_ready none).result =
      Except.error "boom" := by
  have h := renderer_errors_propagate Nat String ir0 r_fail st_ready none
    none none none none none true none "obj" 1 [] none "boom" "d" "s" rfl
  exact ⟨h.1 (fun _ _ _ => rfl), h.2.2.2.2.1 rfl,
         h.2.2.2.2.2.1 rfl, h.2.2.2.2.2.2.2 rfl⟩

/-- The full renderer API surface `EigenmodeSim` uses: the six methods the
spec lists plus `clear_fields`. -/
def repo_renderer_methods : List MName :=
  [MName.execute_design, MName.initialize_eigenmode, MName.analyze_setup,
   MName.get_convergences, MName.set_mode, MName.plot_fields,
   MName.clear_fields]

theorem mname_mem_repo_methods (m : MName) : m ∈ repo_renderer_methods := by
  cases m <;> simp [repo_renderer_methods]

/-- C4 counterexample: `EigenmodeSim.clear_fields` calls
`renderer.clear_fields`, a method outside the six listed by the spec. -/
theorem clear_fields_outside_listed_surface :
    (EigenmodeSim_clear_fields r_ok st_ready none).trace.map
        RCall.method = [MName.clear_fields] ∧
    spec_listed MName.clear_fields = false :=
  ⟨rfl, rfl⟩

/-- C4 amended: every call an `EigenmodeSim` operation makes on
`self.renderer` is to one of `execute_design`, `initialize_eigenmode`,
`analyze_setup`, `get_convergences`, `set_mode`, `plot_fields`, or
`clear_fields` (`plot_convergences` makes no renderer call at all: it
produces only matplotlib actions). -/
theorem renderer_call_surface (DF ε : Type)
    (ir : SimState DF → OpOut DF ε Unit) (r : Renderer DF ε)
    (st : SimState DF) (ds : DesignSelection) (nm : Option String)
    (comp op pl jj ig : Option (List String)) (bpb : Bool)
    (v : Option String) (onm : String) (em : Nat) (ar : List String)
    (ns : Option (List String)) :
    (∀ c ∈ (EigenmodeSim_render r st ds).trace,
      c.method ∈ repo_renderer_methods) ∧
    (∀ c ∈ (EigenmodeSim_analyze r st).trace,
      c.method ∈ repo_renderer_methods) ∧
    (∀ c ∈ (EigenmodeSim_run_sim ir r st nm comp op pl jj ig bpb).trace,
      c.method ∈ repo_renderer_methods) ∧
    (∀ c ∈ (EigenmodeSim_recompute_convergences r st v).trace,
      c.method ∈ repo_renderer_methods) ∧
    (∀ c ∈ (EigenmodeSim_plot_fields r st onm em ar).trace,
      c.method ∈ repo_renderer_methods) ∧
    (∀ c ∈ (EigenmodeSim_clear_fields r st ns).trace,
      c.method ∈ repo_renderer_methods) :=
  ⟨fun c _ => mname_mem_repo_methods c.method,
   fun c _ => mname_mem_repo_methods c.method,
   fun c _ => mname_mem_repo_methods c.method,
   fun c _ => mname_mem_repo_methods c.method,
   fun c _ => mname_mem_repo_methods c.method,
   fun c _ => mname_mem_repo_methods c.method⟩

/-- Witness for the amended C4 at a concrete started instance. -/
theorem renderer_call_surface_witness :
    RCall.method (RCall.get_convergences none) ∈ repo_renderer_methods ∧
    RCall.method (RCall.clear_fields none) ∈ repo_renderer_methods := by
  have h := renderer_call_surface Nat String ir0 r_ok st_ready ds_named
    none none none none none none true none "obj" 1 [] none
  exact ⟨h.2.2.2.1 (RCall.get_convergences none) (by decide),
         h.2.2.2.2.2 (RCall.clear_fields none) (by decide)⟩

theorem analyze_state_default (DF ε : Type) (r : Renderer DF ε)
    (st : SimState DF) :
    (EigenmodeSim_analyze r st).state.default_setup = st.default_setup := by
  unfold EigenmodeSim_analyze
  rcases h1 : r.initialize_eigenmode st.setup_sim with e | sn <;> simp [h1]
  rcases h2 : r.analyze_setup (some sn) with e | u <;> simp [h2]
  rcases h3 : r.get_convergences none with e | tf <;> simp [h3]

theorem run_sim_state_default (DF ε : Type)
    (ir : SimState DF → OpOut DF ε Unit) (r : Renderer DF ε)
    (st : SimState DF) (nm : Option String)
    (comp op pl jj ig : Option (List String)) (bpb : Bool)
    (hir : ∀ s, ((ir s).state).default_setup = s.default_setup) :
    SimState.default_setup
      (EigenmodeSim_run_sim ir r st nm comp op pl jj ig bpb).state =
      st.default_setup := by
  simp only [EigenmodeSim_run_sim, EigenmodeSim_render]
  by_cases hb : st.renderer_initialized = true <;>
    simp only [hb, if_true, if_false, Bool.false_eq_true]
  all_goals repeat' split
  all_goals first
    | rfl
    | exact hir st
    | exact analyze_state_default DF ε r st
    | exact (analyze_state_default DF ε r (ir st).state).trans (hir st)

theorem sim_step_default (DF ε : Type) (op : SimOp DF ε)
    (st : SimState DF) (h : sim_op_ir_ok op) :
    (sim_step op st).default_setup = st.default_setup := by
  cases op with
  | run_sim_op ir r nm c o p j i b =>
      exact run_sim_state_default DF ε ir r st nm c o p j i b h
  | recompute_op r v =>
      unfold sim_step EigenmodeSim_recompute_convergences
      rcases h1 : r.get_convergences v with e | tf <;> simp [h1]
  | set_convergence_t_op v => rfl
  | set_convergence_f_op v => rfl
  | plot_convergences_op ct cf fig d => rfl
  | plot_fields_op r nm m a =>
      unfold sim_step EigenmodeSim_plot_fields
      rcases h1 : r.set_mode m st.setup_name with e | u <;> simp [h1]
  | clear_fields_op r ns => rfl
  | setup_override_op s => rfl

theorem sim_run_default (DF ε : Type) (ops : List (SimOp DF ε))
    (st : SimState DF) (hir : ∀ op ∈ ops, sim_op_ir_ok op) :
    (sim_run ops st).default_setup = st.default_setup := by
  induction ops generalizing st with
  | nil => rfl
  | cons o rest ih =>
      have h1 : sim_op_ir_ok o := hir o (List.mem_cons_self o rest)
      have h2 : ∀ op ∈ rest, sim_op_ir_ok op :=
        fun op hm => hir op (List.mem_cons_of_mem o hm)
      calc (sim_run (o :: rest) st).default_setup
          = (sim_run rest (sim_step o st)).default_setup := rfl
        _ = (sim_step o st).default_setup := ih (sim_step o st) h2
        _ = st.default_setup := sim_step_default DF ε o st h1

/-- C6: the class-level defaults are static — construction stores exactly
`EigenmodeSim_default_setup`, and no sequence of instance operations
(`run_sim`, `recompute_convergences`, property setters, plotting, field
operations, per-call setup overrides) changes the defaults dictionary. -/
theorem default_setup_static (DF ε : Type) (dn rn : String)
    (ops : List (SimOp DF ε)) (st : SimState DF)
    (hir : ∀ op ∈ ops, sim_op_ir_ok op) :
    (EigenmodeSim_init DF dn rn).default_setup =
      EigenmodeSim_default_setup ∧
    (sim_run ops st).default_setup = st.default_setup :=
  ⟨rfl, sim_run_default DF ε ops st hir⟩

/-- A varied concrete lifecycle: override the setup, set a table, run the
simulation, recompute, plot fields, clear them, plot convergences. -/
def ops_demo : List (SimOp Nat String) :=
  [SimOp.setup_override_op
     { EigenmodeSim_default_setup.sim with max_passes := 20 },
   SimOp.set_convergence_t_op 5,
   SimOp.run_sim_op ir0 r_ok none none none none none none true,
   SimOp.recompute_op r_ok (some "v"),
   SimOp.plot_fields_op r_ok "obj" 1 [],
   SimOp.clear_fields_op r_ok none,
   SimOp.plot_convergences_op none none none true]

/-- Witness for C6 on a concrete operation sequence. -/
theorem default_setup_static_witness :
    (sim_run ops_demo st_ready).default_setup =
      EigenmodeSim_default_setup := by
  have hir : ∀ op ∈ ops_demo, sim_op_ir_ok op := by
    intro op hop
    simp only [ops_demo, List.mem_cons, List.not_mem_nil, or_false] at hop
    rcases hop with h | h | h | h | h | h | h <;> subst h <;>
      first
        | trivial
        | exact fun _ => rfl
  exact (default_setup_static Nat String "design" "hfss" ops_demo st_ready
    hir).2.trans rfl

/-- A concrete tree-view widget state over a trivial model. -/
def tv0 : TreeViewState Unit :=
  { model := ()
    column_count := 2
    content_width := fun _ => 300
    width := fun _ => 100
    header_shown := false
    auto_scroll := true
    v_scroll := ScrollMode.per_item
    h_scroll := ScrollMode.per_item
    style_sheet := "" }

/-- C5 counterexample: the constructor does schedule the one-shot 200 ms
timer invoking `style_me`, but `resize_on_expand` — connected to the
`expanded` signal, not the timer — performs a column-width widget change,
and that change is not among the ones `style_me` makes. -/
theorem column_resize_outside_timer :
    (QTreeView_Base_init tv0).timers =
      [{ delay_ms := 200, single_shot := true, callback := CB.style_me }] ∧
    (QTreeView_Base_init tv0).connections =
      [(Signal.expanded, CB.resize_on_expand)] ∧
    (resize_on_expand tv0).changes =
      [WChange.resize_column_to_contents 0] ∧
    CB.resize_on_expand ≠ CB.style_me ∧
    WChange.resize_column_to_contents 0 ∉ (style_me tv0).changes :=
  ⟨rfl, rfl, rfl, by decide, by decide⟩

theorem autoresize_step_changes (M : Type) (mw : Nat)
    (st : TreeViewState M) (i : Nat) :
    ((autoresize_step mw st i).changes.all WChange.is_column_width) =
      true ∧
    (autoresize_step mw st i).state.model = st.model := by
  by_cases h : st.content_width i > mw <;>
    simp [autoresize_step, h, WChange.is_column_width]

theorem autoresize_fold_invariant (M : Type) (mw : Nat) (l : List Nat)
    (acc : TVOut M)
    (h1 : acc.changes.all WChange.is_column_width = true) :
    ((l.foldl (autoresize_fold_step mw) acc).changes.all
        WChange.is_column_width) = true ∧
    (l.foldl (autoresize_fold_step mw) acc).state.model =
      acc.state.model := by
  induction l generalizing acc with
  | nil => exact ⟨h1, rfl⟩
  | cons i rest ih =>
      have hs := autoresize_step_changes M mw acc.state i
      have hacc : (autoresize_fold_step mw acc i).changes.all
          WChange.is_column_width = true := by
        dsimp [autoresize_fold_step]
        rw [List.all_append]
        simp [h1, hs.1]
      have hrest := ih (autoresize_fold_step mw acc i) hacc
      refine ⟨hrest.1, hrest.2.trans ?_⟩
      dsimp [autoresize_fold_step]
      exact hs.2

/-- C5 amended: the constructor schedules the one-shot 200 ms timer
invoking `style_me` and connects the `expanded` signal to
`resize_on_expand`, itself making no display change; the display-property
changes (header shown, auto-scroll disabled, per-pixel scroll modes,
stylesheet) all happen in the timer callback `style_me`, which touches no
column width; column-width changes happen only in `autoresize_columns`
and in the signal callback `resize_on_expand`; and no operation of the
class modifies the underlying model data. -/
theorem tree_view_display_changes (M : Type) (st : TreeViewState M)
    (mw : Nat) :
    (QTreeView_Base_init st).timers =
      [{ delay_ms := 200, single_shot := true, callback := CB.style_me }] ∧
    (QTreeView_Base_init st).connections =
      [(Signal.expanded, CB.resize_on_expand)] ∧
    (QTreeView_Base_init st).changes = [] ∧
    (style_me st).changes =
      [WChange.header_show, WChange.set_auto_scroll false,
       WChange.set_vertical_scroll_mode ScrollMode.per_pixel,
       WChange.set_horizontal_scroll_mode ScrollMode.per_pixel,
       WChange.set_style_sheet tree_view_style_sheet] ∧
    (style_me st).state.width = st.width ∧
    ((autoresize_columns st mw).changes.all WChange.is_column_width) =
      true ∧
    ((resize_on_expand st).changes.all WChange.is_column_width) = true ∧
    (QTreeView_Base_init st).state.model = st.model ∧
    (style_me st).state.model = st.model ∧
    (autoresize_columns st mw).state.model = st.model ∧
    (resize_on_expand st).state.model = st.model := by
  refine ⟨rfl, rfl, rfl, rfl, rfl, ?_, rfl, rfl, rfl, ?_, rfl⟩
  · exact (autoresize_fold_invariant M mw (List.range st.column_count)
      { state := st, changes := [] } rfl).1
  · exact (autoresize_fold_invariant M mw (List.range st.column_count)
      { state := st, changes := [] } rfl).2

end QiskitMetal
